import Mathlib

/-!
# Verification of the zatt Raft consensus core (`zatt/server/states.py`)

This file gives a shallow embedding of the role state machine of the
zatt server (`State` / `Follower` / `Candidate` / `Leader` in
`src/zatt/server/states.py`) and proves, or refutes, the claims of the
specification against it.

Python integers and floats that flow through the handlers are modelled
as rationals (`ℚ`): all terms and log indices are exchanged as exact
numbers, and `statistics.median` can produce half-integral values on
even-size clusters, which `ℚ` represents exactly.  Python dicts are
modelled as insertion-ordered association lists.  A Python statement
that can raise (`del d[k]` on a missing key, `d[k]` lookup on a missing
key) is modelled in a `Res` error monad with a `KeyError` error value.

The collaborators `LogManager` (log.py), `PersistentDict` (utils.py)
and `config` (config.py) are not part of the provided source; their
operations are modelled from the specification (sections 4.1, 4.2 and
6) and are marked `Modelled from the spec:` in their doc comments.
-/

namespace Zatt

/-- A log entry: `{term, data}`.  The command payload is opaque; we
represent it by a natural number tag. -/
structure Entry where
  term : ℚ
  data : ℕ
deriving DecidableEq, Repr

/-- The snapshot descriptor (`compacted`): last index covered, its term,
the number of entries replaced, and an opaque state-machine image. -/
structure Compacted where
  index : ℚ
  term : ℚ
  count : ℚ
  data : ℕ
deriving DecidableEq, Repr

/-- Modelled from the spec: the `LogManager` log store — in-memory
entries after the snapshot horizon, the snapshot descriptor, and the
commit index. -/
structure LogStore where
  entries : List Entry
  compacted : Compacted
  commitIndex : ℚ
deriving DecidableEq, Repr

/-- Clamp a rational to a natural number (floor, negatives to 0); used
to convert log positions into list positions. -/
def ratToNat (q : ℚ) : ℕ := q.floor.toNat

/-- Modelled from the spec: `log.index` is the last log index,
`compacted.index + len(entries)`. -/
def LogStore.index (l : LogStore) : ℚ := l.compacted.index + l.entries.length

/-- Modelled from the spec: `log.term(i)` returns `compacted.term` for
`i ≤ compacted.index` (sentinel 0 at the origin) and the stored entry
term otherwise. -/
def LogStore.term (l : LogStore) (i : ℚ) : ℚ :=
  if i ≤ l.compacted.index then l.compacted.term
  else
    match l.entries.get? (ratToNat (i - l.compacted.index - 1)) with
    | some e => e.term
    | none => 0

/-- Overlap merge used by `append_entries`: existing entries matching
the incoming ones by term are kept, the first conflict truncates the
rest, and incoming entries beyond the existing ones are appended. -/
def mergeTail : List Entry → List Entry → List Entry
  | old, [] => old
  | [], news => news
  | o :: os, n :: ns => if o.term = n.term then o :: mergeTail os ns else n :: ns

/-- Modelled from the spec: `log.append_entries(entries, prev_index)` —
truncate conflicting entries after `prev_index`, keep matching ones,
append the new ones. -/
def LogStore.appendEntries (l : LogStore) (es : List Entry) (prev : ℚ) : LogStore :=
  let keep := min (ratToNat (prev - l.compacted.index)) l.entries.length
  { l with entries := l.entries.take keep ++ mergeTail (l.entries.drop keep) es }

/-- Modelled from the spec: `log.commit(new_commit)` sets
`commitIndex = min(max(commitIndex, new_commit), index())`. -/
def LogStore.commit (l : LogStore) (c : ℚ) : LogStore :=
  { l with commitIndex := min (max l.commitIndex c) l.index }

/-- Modelled from the spec: `log.slice(lo, hi)` — the entries with log
positions in the half-open range, clamped to what is in memory. -/
def LogStore.slice (l : LogStore) (lo hi : ℚ) : List Entry :=
  (l.entries.take (ratToNat (hi - l.compacted.index - 1))).drop
    (ratToNat (lo - l.compacted.index - 1))

/-- Modelled from the spec: `LogManager(compact_count, compact_term,
compact_data)` — a log store freshly initialized from a snapshot: no
in-memory entries, the snapshot covering indices up to its count, and
the commit index advanced to the snapshot horizon. -/
def installSnapshot (ccount cterm : ℚ) (cdata : ℕ) : LogStore :=
  { entries := [],
    compacted := { index := ccount, term := cterm, count := ccount, data := cdata },
    commitIndex := ccount }

/-- Insertion-ordered dictionary, as Python dicts: a list of key/value
pairs without duplicate keys. -/
abbrev Dict (α β : Type) := List (α × β)

/-- Python `d[k] = v`: replace in place if the key exists, else append. -/
def dinsert {α β : Type} [DecidableEq α] (k : α) (v : β) : Dict α β → Dict α β
  | [] => [(k, v)]
  | (k', v') :: rest => if k' = k then (k, v) :: rest else (k', v') :: dinsert k v rest

/-- Python `k in d`. -/
def dmem {α β : Type} [DecidableEq α] (k : α) : Dict α β → Bool
  | [] => false
  | (k', _) :: rest => k' = k || dmem k rest

/-- Python `d[k]` as an optional lookup. -/
def dlookup {α β : Type} [DecidableEq α] (k : α) : Dict α β → Option β
  | [] => none
  | (k', v) :: rest => if k' = k then some v else dlookup k rest

/-- Python `del d[k]` for a present key: remove the binding. -/
def derase {α β : Type} [DecidableEq α] (k : α) : Dict α β → Dict α β
  | [] => []
  | (k', v) :: rest => if k' = k then rest else (k', v) :: derase k rest

/-- Errors a handler can raise; only `KeyError` is reachable in the
modelled code. -/
inductive Err
  | keyError
deriving DecidableEq, Repr

/-- Result of a computation that may raise. -/
inductive Res (α : Type)
  | ok (val : α)
  | err (e : Err)
deriving DecidableEq, Repr

/-- Project the value out of a result, with a fallback for errors. -/
def Res.getD {α : Type} (r : Res α) (dflt : α) : α :=
  match r with
  | .ok v => v
  | .err _ => dflt

/-- Sorted insertion into an ascending list of rationals. -/
def insertSorted (x : ℚ) : List ℚ → List ℚ
  | [] => [x]
  | y :: ys => if x ≤ y then x :: y :: ys else y :: insertSorted x ys

/-- Insertion sort, ascending. -/
def sortq (xs : List ℚ) : List ℚ := xs.foldr insertSorted []

/-- Python `statistics.median`: middle element of the sorted data for
odd length, mean of the two middle elements for even length. -/
def pyMedian (xs : List ℚ) : ℚ :=
  let s := sortq xs
  let n := xs.length
  if n = 0 then 0
  else if n % 2 = 1 then s.getD (n / 2) 0
  else (s.getD (n / 2 - 1) 0 + s.getD (n / 2) 0) / 2

/-- The peer message schema (section 6): every message carries a term. -/
inductive PMsg
  | request_vote (term : ℚ) (candidateId : ℕ) (lastLogIndex : ℚ) (lastLogTerm : ℚ)
  | append_entries (term : ℚ) (leaderId : ℕ) (leaderCommit : ℚ) (prevLogIndex : ℚ)
      (prevLogTerm : Option ℚ) (entries : List Entry) (compact : Option (ℚ × ℚ × ℕ))
  | response_vote (term : ℚ) (voteGranted : Bool)
  | response_append (term : ℚ) (next_index : ℚ)
deriving DecidableEq, Repr

/-- The term field, present on every peer message. -/
def PMsg.term : PMsg → ℚ
  | request_vote t _ _ _ => t
  | append_entries t _ _ _ _ _ _ => t
  | response_vote t _ => t
  | response_append t _ => t

/-- Client-facing replies relevant to the claims. -/
inductive CMsg
  | redirect (leader : ℕ)
  | result (success : Bool)
deriving DecidableEq, Repr

/-- The role a node is currently playing. -/
inductive Role
  | follower
  | candidate
  | leader
deriving DecidableEq, Repr

/-- The durable persistent cell (self.persist). -/
structure Persist where
  votedFor : Option ℕ
  currentTerm : ℚ
deriving DecidableEq, Repr

/-- The volatile dict (self.volatile): best known leader and own id. -/
structure Volatile where
  leaderId : Option ℕ
  selfId : ℕ
deriving DecidableEq, Repr

/-- Leader-only state: `self.nextIndex` and `self.waiting_clients`
(client handles are opaque naturals). -/
structure LeaderVars where
  nextIndex : Dict ℕ ℚ
  waitingClients : Dict ℚ (List ℕ)
deriving DecidableEq, Repr

/-- Candidate-only state: `self.votes_count`. -/
structure CandidateVars where
  votesCount : ℕ
deriving DecidableEq, Repr

/-- The whole node: current role plus the substate shared across role
transitions.  Role-specific substates are only meaningful while the
corresponding role is active, as in the Python objects. -/
structure Node where
  role : Role
  persist : Persist
  volatile : Volatile
  log : LogStore
  leaderV : LeaderVars
  candV : CandidateVars
deriving DecidableEq, Repr

/-- Modelled from the spec: the configuration — own id and the cluster
roster, a map from peer id to (opaque) address. -/
structure Config where
  id : ℕ
  cluster : Dict ℕ ℕ
deriving DecidableEq, Repr

/-- Which role-specific `on_peer_*` handlers ran while processing a
message; recorded so that dispatch (or its absence) is observable. -/
inductive Handler
  | followerRequestVote
  | followerAppendEntries
  | candidateAppendEntries
  | candidateResponseVote
  | leaderResponseAppend
deriving DecidableEq, Repr

/-- Observable output of processing one message: peer sends, client
sends, and the role-specific handlers that were invoked. -/
structure Out where
  psends : List (ℕ × PMsg)
  csends : List (ℕ × CMsg)
  calls : List Handler
deriving DecidableEq, Repr

/-- No output at all. -/
def Out.empty : Out := { psends := [], csends := [], calls := [] }

/-- Writing a new current term into the persistent cell. -/
def bump (n : Node) (t : ℚ) : Node :=
  { n with persist := { n.persist with currentTerm := t } }

/-- Embeds Follower init (lines 88-91): adopt the old state, clear
`votedFor`, restart the election timer (timers are not modelled). -/
def follower_init (n : Node) : Node :=
  { n with role := Role.follower, persist := { n.persist with votedFor := none } }

/-- The vote decision of `Follower.on_peer_request_vote`
(lines 108-111): term is current, can vote, candidate index current. -/
def voteGrantedB (n : Node) (term : ℚ) (candidateId : ℕ) (lastLogIndex : ℚ) : Bool :=
  decide (term ≥ n.persist.currentTerm) &&
    (n.persist.votedFor == none || n.persist.votedFor == some candidateId) &&
    decide (lastLogIndex ≥ n.log.index)

/-- Embeds Follower.on_peer_request_vote (lines 106-121). -/
def follower_on_request_vote (n : Node) (peer : ℕ) (term : ℚ) (candidateId : ℕ)
    (lastLogIndex : ℚ) (lastLogTerm : ℚ) : Node × Out :=
  let granted := voteGrantedB n term candidateId lastLogIndex
  let n1 :=
    if granted then { n with persist := { n.persist with votedFor := some candidateId } }
    else n
  (n1,
    { psends := [(peer, PMsg.response_vote n1.persist.currentTerm granted)],
      csends := [], calls := [Handler.followerRequestVote] })

/-- The `prev_log_term_match` test of `Follower.on_peer_append_entries`
(lines 127-128): a null `prevLogTerm` passes unconditionally. -/
def prevLogTermMatchB (n : Node) (prevLogIndex : ℚ) (prevLogTerm : Option ℚ) : Bool :=
  match prevLogTerm with
  | none => true
  | some pt => decide (n.log.term prevLogIndex = pt)

/-- The `success` flag of `Follower.on_peer_append_entries`
(lines 126-129). -/
def appendSuccessB (n : Node) (term : ℚ) (prevLogIndex : ℚ) (prevLogTerm : Option ℚ) : Bool :=
  decide (term ≥ n.persist.currentTerm) && prevLogTermMatchB n prevLogIndex prevLogTerm

/-- Embeds Follower.on_peer_append_entries (lines 123-148).  A message with
compact data reinstalls the log unconditionally; otherwise the entries
are appended and committed only on `success`.  The reply reads the log
index after the mutation. -/
def follower_on_append_entries (n : Node) (peer : ℕ) (term : ℚ) (leaderId : ℕ)
    (leaderCommit : ℚ) (prevLogIndex : ℚ) (prevLogTerm : Option ℚ)
    (entries : List Entry) (compact : Option (ℚ × ℚ × ℕ)) : Node × Out :=
  let success := appendSuccessB n term prevLogIndex prevLogTerm
  let n1 :=
    match compact with
    | some (ccount, cterm, cdata) =>
      { n with log := installSnapshot ccount cterm cdata,
               volatile := { n.volatile with leaderId := some leaderId } }
    | none =>
      if success then
        { n with log := (n.log.appendEntries entries prevLogIndex).commit leaderCommit,
                 volatile := { n.volatile with leaderId := some leaderId } }
      else n
  (n1,
    { psends := [(peer, PMsg.response_append n1.persist.currentTerm (n1.log.index + 1))],
      csends := [], calls := [Handler.followerAppendEntries] })

/-- Embeds Candidate.send_vote_requests (lines 160-166): broadcast
`request_vote` to all peers.  `broadcast_peers` is modelled from the
spec as a send to every cluster member other than self. -/
def send_vote_requests_msgs (cfg : Config) (n : Node) : List (ℕ × PMsg) :=
  (cfg.cluster.map Prod.fst).filterMap (fun p =>
    if p = n.volatile.selfId then none
    else
      some (p, PMsg.request_vote n.persist.currentTerm n.volatile.selfId
        n.log.index (n.log.term n.log.index)))

/-- Embeds Candidate init (lines 152-158): Follower construction (clears
`votedFor`), then increment `currentTerm`, vote for self, set
`votes_count = 1`, broadcast vote requests. -/
def candidate_init (cfg : Config) (n : Node) : Node × Out :=
  let n1 := follower_init n
  let n2 :=
    { n1 with role := Role.candidate,
              persist := { n1.persist with
                            currentTerm := n1.persist.currentTerm + 1,
                            votedFor := some n1.volatile.selfId },
              candV := { votesCount := 1 } }
  (n2, { psends := send_vote_requests_msgs cfg n2, csends := [], calls := [] })

/-- Embeds Leader.send_append_entries (lines 192-216), message construction
only (the recurring timer is not modelled): one `append_entries` per
peer other than self, with a two-entry batch starting at that peer
value of `nextIndex`, and snapshot fields when the peer is behind the snapshot
horizon. -/
def send_append_entries_msgs (cfg : Config) (n : Node) : List (ℕ × PMsg) :=
  (cfg.cluster.map Prod.fst).filterMap (fun p =>
    if p = n.volatile.selfId then none
    else
      let niP := (dlookup p n.leaderV.nextIndex).getD 0
      let prev := niP - 1
      let compact :=
        if niP ≤ n.log.compacted.index then
          some (n.log.compacted.count, n.log.compacted.term, n.log.compacted.data)
        else none
      some (p, PMsg.append_entries n.persist.currentTerm n.volatile.selfId
        n.log.commitIndex prev (some (n.log.term prev)) (n.log.slice niP (niP + 2)) compact))

/-- Embeds Leader init (lines 181-187): become leader, point `leaderId`
at self, seed `nextIndex[x] = commitIndex + 1` for the whole cluster,
send an immediate round of appends, then start with no waiting
clients. -/
def leader_init (cfg : Config) (n : Node) : Node × Out :=
  let n1 :=
    { n with role := Role.leader,
             volatile := { n.volatile with leaderId := some n.volatile.selfId },
             leaderV := { nextIndex := cfg.cluster.map (fun p => (p.1, n.log.commitIndex + 1)),
                          waitingClients := n.leaderV.waitingClients } }
  let sends := send_append_entries_msgs cfg n1
  ({ n1 with leaderV := { n1.leaderV with waitingClients := [] } },
    { psends := sends, csends := [], calls := [] })

/-- Embeds Candidate.on_peer_append_entries (lines 168-171): convert to
Follower and hand the same message to the Follower handler. -/
def candidate_on_append_entries (n : Node) (peer : ℕ) (term : ℚ) (leaderId : ℕ)
    (leaderCommit : ℚ) (prevLogIndex : ℚ) (prevLogTerm : Option ℚ)
    (entries : List Entry) (compact : Option (ℚ × ℚ × ℕ)) : Node × Out :=
  let n1 := follower_init n
  let (n2, out) :=
    follower_on_append_entries n1 peer term leaderId leaderCommit prevLogIndex
      prevLogTerm entries compact
  (n2, { out with calls := Handler.candidateAppendEntries :: out.calls })

/-- Embeds Candidate.on_peer_response_vote (lines 173-177): add the granted
flag to the vote count and become Leader on a strict majority
(`votes_count > len(cluster) / 2`, Python float division). -/
def candidate_on_response_vote (cfg : Config) (n : Node) (voteGranted : Bool) : Node × Out :=
  let vc := n.candV.votesCount + (if voteGranted then 1 else 0)
  let n1 := { n with candV := { votesCount := vc } }
  if (vc : ℚ) > (cfg.cluster.length : ℚ) / 2 then
    let (n2, out) := leader_init cfg n1
    (n2, { out with calls := Handler.candidateResponseVote :: out.calls })
  else
    (n1, { psends := [], csends := [], calls := [Handler.candidateResponseVote] })

/-- Embeds Leader.send_client_append_response (lines 234-243), written
exactly as the source: collect the buckets whose index compares `>=`
to the commit index, answer their clients, then delete — via the loop
variable `client_index` left over from the scan, i.e. always the last
scanned key — once per collected bucket; a repeated delete raises
`KeyError`. -/
def delLoop : ℕ → ℚ → Dict ℚ (List ℕ) → Res (Dict ℚ (List ℕ))
  | 0, _, wc => Res.ok wc
  | k + 1, key, wc =>
    if dmem key wc then delLoop k key (derase key wc) else Res.err Err.keyError

/-- The body of `Leader.send_client_append_response` (lines 234-243)
over the waiting-clients dict and the current commit index; returns the
remaining dict and the client sends, or the raised error. -/
def send_client_append_response (wc : Dict ℚ (List ℕ)) (commitIndex : ℚ) :
    Res (Dict ℚ (List ℕ) × List (ℕ × CMsg)) :=
  let answered := wc.filter (fun p => decide (p.1 ≥ commitIndex))
  let toDelete := answered.map Prod.fst
  let csends := (answered.map (fun p => p.2.map (fun c => (c, CMsg.result true)))).flatten
  match wc.getLast? with
  | none => Res.ok (wc, csends)
  | some last =>
    match delLoop toDelete.length last.1 wc with
    | Res.ok wc2 => Res.ok (wc2, csends)
    | Res.err e => Res.err e

/-- The first four statements of `Leader.on_peer_response_append`
(lines 219-223): trust the reported `next_index`, refresh the self
entry, commit at the cluster median minus one. -/
def leader_response_append_core (n : Node) (peer : ℕ) (next_index : ℚ) : Node :=
  let ni := dinsert n.volatile.selfId (n.log.index + 1)
    (dinsert peer next_index n.leaderV.nextIndex)
  let idx := pyMedian (ni.map Prod.snd) - 1
  { n with leaderV := { n.leaderV with nextIndex := ni }, log := n.log.commit idx }

/-- The final statement of `Leader.on_peer_response_append` (line 224):
run `send_client_append_response` against the waiting clients
and commit index. -/
def notify_waiting_clients (n : Node) : Res (Node × List (ℕ × CMsg)) :=
  match send_client_append_response n.leaderV.waitingClients n.log.commitIndex with
  | Res.ok (wc2, cs) =>
    Res.ok ({ n with leaderV := { n.leaderV with waitingClients := wc2 } }, cs)
  | Res.err e => Res.err e

/-- Embeds Leader.on_peer_response_append (lines 218-224). -/
def leader_on_response_append (n : Node) (peer : ℕ) (next_index : ℚ) : Res (Node × Out) :=
  let n1 := leader_response_append_core n peer next_index
  match notify_waiting_clients n1 with
  | Res.ok (n2, cs) =>
    Res.ok (n2, { psends := [], csends := cs, calls := [Handler.leaderResponseAppend] })
  | Res.err e => Res.err e

/-- The dynamic handler lookup dispatch of
`State.data_received_peer` (lines 38-42): route to the handler the
current role defines (Candidate inherits the Follower vote handler);
an absent handler only logs. -/
def roleDispatch (cfg : Config) (n : Node) (peer : ℕ) (msg : PMsg) : Res (Node × Out) :=
  match n.role with
  | Role.follower =>
    match msg with
    | PMsg.request_vote t cid lli llt =>
      Res.ok (follower_on_request_vote n peer t cid lli llt)
    | PMsg.append_entries t lid lc pli plt es cp =>
      Res.ok (follower_on_append_entries n peer t lid lc pli plt es cp)
    | _ => Res.ok (n, Out.empty)
  | Role.candidate =>
    match msg with
    | PMsg.request_vote t cid lli llt =>
      Res.ok (follower_on_request_vote n peer t cid lli llt)
    | PMsg.append_entries t lid lc pli plt es cp =>
      Res.ok (candidate_on_append_entries n peer t lid lc pli plt es cp)
    | PMsg.response_vote _ g => Res.ok (candidate_on_response_vote cfg n g)
    | PMsg.response_append _ _ => Res.ok (n, Out.empty)
  | Role.leader =>
    match msg with
    | PMsg.response_append _ ni => leader_on_response_append n peer ni
    | _ => Res.ok (n, Out.empty)

/-- Embeds State.data_received_peer (lines 27-42): a message from a higher
term bumps `currentTerm`; a non-Follower then converts to Follower and
redispatches the very same message to itself (which, the term now
being equal, reaches the role dispatch), while a node already in the
Follower role returns with the message otherwise unprocessed.  A
message without a higher term goes to the role dispatch. -/
def data_received_peer (cfg : Config) (n : Node) (peer : ℕ) (msg : PMsg) :
    Res (Node × Out) :=
  if h : n.persist.currentTerm < msg.term then
    let n1 := bump n msg.term
    if n.role ≠ Role.follower then
      data_received_peer cfg (follower_init n1) peer msg
    else
      Res.ok (n1, Out.empty)
  else
    roleDispatch cfg n peer msg
termination_by (if n.persist.currentTerm < msg.term then 1 else 0)
decreasing_by
  simp [follower_init, bump, h, lt_irrefl]

/-- Embeds State.on_client_append (lines 52-57), the non-Leader redirect:
look the best known leader up in the cluster roster and send the
address back.  Modelled from the spec: `config.cluster` is a map from
peer id to address, so indexing it with a null or unknown `leaderId`
raises `KeyError` and nothing is sent. -/
def on_client_append_nonleader (cfg : Config) (n : Node) : Res CMsg :=
  match n.volatile.leaderId with
  | none => Res.err Err.keyError
  | some lid =>
    match dlookup lid cfg.cluster with
    | none => Res.err Err.keyError
    | some addr => Res.ok (CMsg.redirect addr)

/-- Node part of a result, with a fallback for errors. -/
def resultNode (r : Res (Node × Out)) (dflt : Node) : Node :=
  match r with
  | Res.ok (n, _) => n
  | Res.err _ => dflt

/-- Output part of a result, with empty output for errors. -/
def resultOut (r : Res (Node × Out)) : Out :=
  match r with
  | Res.ok (_, o) => o
  | Res.err _ => Out.empty

/-! ## Sample states used by witnesses and counterexamples -/

/-- A three-node cluster: ids 1, 2, 3 with addresses 11, 12, 13;
this node is id 1. -/
def cfg3 : Config := { id := 1, cluster := [(1, 11), (2, 12), (3, 13)] }

/-- A two-entry log (terms 1 and 1), nothing compacted, nothing
committed. -/
def log2 : LogStore :=
  { entries := [{ term := 1, data := 100 }, { term := 1, data := 101 }],
    compacted := { index := 0, term := 0, count := 0, data := 0 },
    commitIndex := 0 }

/-- A Follower at term 5 that has already voted for peer 3 and knows no
leader. -/
def ndF : Node :=
  { role := Role.follower,
    persist := { votedFor := some 3, currentTerm := 5 },
    volatile := { leaderId := none, selfId := 1 },
    log := log2,
    leaderV := { nextIndex := [], waitingClients := [] },
    candV := { votesCount := 0 } }

/-- The same Follower, but it knows peer 2 is the leader. -/
def ndF2 : Node :=
  { ndF with volatile := { leaderId := some 2, selfId := 1 } }

/-- A Candidate at term 5 holding its self-vote. -/
def ndC : Node :=
  { ndF with role := Role.candidate,
             persist := { votedFor := some 1, currentTerm := 5 },
             candV := { votesCount := 1 } }

/-- A Leader at term 4 with two clients waiting on the uncommitted
entries 1 and 2. -/
def ndL : Node :=
  { role := Role.leader,
    persist := { votedFor := some 1, currentTerm := 4 },
    volatile := { leaderId := some 1, selfId := 1 },
    log := log2,
    leaderV := { nextIndex := [(1, 1), (2, 1), (3, 1)],
                 waitingClients := [(1, [10]), (2, [20])] },
    candV := { votesCount := 0 } }

/-- The same Leader with no waiting clients. -/
def ndL0 : Node :=
  { ndL with leaderV := { nextIndex := [(1, 1), (2, 1), (3, 1)], waitingClients := [] } }

/-! ## Dispatch helper lemmas -/

/-- A message whose term is not ahead goes straight to the role
dispatch. -/
theorem data_received_peer_no_bump (cfg : Config) (n : Node) (peer : ℕ) (msg : PMsg)
    (h : ¬ n.persist.currentTerm < msg.term) :
    data_received_peer cfg n peer msg = roleDispatch cfg n peer msg := by
  rw [data_received_peer.eq_def]
  simp [h]

/-- A higher-term message at a node already in the Follower role only
bumps the term. -/
theorem data_received_peer_bump_follower (cfg : Config) (n : Node) (peer : ℕ) (msg : PMsg)
    (hr : n.role = Role.follower) (h : n.persist.currentTerm < msg.term) :
    data_received_peer cfg n peer msg = Res.ok (bump n msg.term, Out.empty) := by
  rw [data_received_peer.eq_def]
  simp [h, hr]

/-- A higher-term message at a non-Follower bumps the term, converts to
Follower and is processed once by the role dispatch of the new Follower. -/
theorem data_received_peer_bump_nonfollower (cfg : Config) (n : Node) (peer : ℕ)
    (msg : PMsg) (hr : n.role ≠ Role.follower) (h : n.persist.currentTerm < msg.term) :
    data_received_peer cfg n peer msg =
      roleDispatch cfg (follower_init (bump n msg.term)) peer msg := by
  rw [data_received_peer.eq_def]
  simp only [h, hr, dite_true, if_true, ne_eq, not_false_iff, if_pos, dif_pos]
  rw [data_received_peer.eq_def]
  simp [follower_init, bump, lt_irrefl]

/-- Looking up a key just inserted returns the inserted value. -/
theorem dlookup_dinsert_self {β : Type} (k : ℕ) (v : β) (d : Dict ℕ β) :
    dlookup k (dinsert k v d) = some v := by
  induction d with
  | nil => simp [dinsert, dlookup]
  | cons p rest ih =>
    by_cases h : p.1 = k <;> simp [dinsert, dlookup, h, ih]

/-- Inserting under a different key leaves a lookup unchanged. -/
theorem dlookup_dinsert_ne {β : Type} (k k' : ℕ) (v : β) (d : Dict ℕ β)
    (hne : k ≠ k') : dlookup k (dinsert k' v d) = dlookup k d := by
  induction d with
  | nil => simp [dinsert, dlookup, Ne.symm hne]
  | cons p rest ih =>
    by_cases h : p.1 = k' <;> by_cases h2 : p.1 = k <;>
      simp_all [dinsert, dlookup]

/-! ## Claims -/

/-- C9 (confirmed): a node already in the Follower role that receives a
peer message with a strictly higher term updates `currentTerm` to the
message term, invokes no role-specific handler, sends no reply, and
leaves `votedFor`, the log and `leaderId` unchanged. -/
theorem C9_follower_higher_term_drops_message (cfg : Config) (n : Node) (peer : ℕ)
    (msg : PMsg) (hr : n.role = Role.follower) (h : n.persist.currentTerm < msg.term) :
    data_received_peer cfg n peer msg = Res.ok (bump n msg.term, Out.empty) ∧
    (bump n msg.term).persist.currentTerm = msg.term ∧
    (bump n msg.term).persist.votedFor = n.persist.votedFor ∧
    (bump n msg.term).log = n.log ∧
    (bump n msg.term).volatile.leaderId = n.volatile.leaderId ∧
    Out.empty.psends = [] ∧ Out.empty.csends = [] ∧ Out.empty.calls = [] :=
  ⟨data_received_peer_bump_follower cfg n peer msg hr h, rfl, rfl, rfl, rfl, rfl, rfl, rfl⟩

/-- Witness for C9: the Follower `ndF` (term 5, voted for 3) receiving a
term-9 vote request. -/
theorem C9_follower_higher_term_drops_message_witness :
    data_received_peer cfg3 ndF 2 (PMsg.request_vote 9 2 9 1) =
      Res.ok (bump ndF 9, Out.empty) ∧
    (bump ndF 9).persist.currentTerm = 9 ∧
    (bump ndF 9).persist.votedFor = ndF.persist.votedFor ∧
    (bump ndF 9).log = ndF.log ∧
    (bump ndF 9).volatile.leaderId = ndF.volatile.leaderId ∧
    Out.empty.psends = [] ∧ Out.empty.csends = [] ∧ Out.empty.calls = [] :=
  C9_follower_higher_term_drops_message cfg3 ndF 2 (PMsg.request_vote 9 2 9 1)
    (by with_unfolding_all decide) (by with_unfolding_all decide)

/-- C1 counterexample: the claim says every higher-term message clears
`votedFor`, but a node already in the Follower role keeps its vote (and
the message is dropped): `ndF` has term 5 and `votedFor = 3`; after a
term-8 message its vote is still 3 and no handler ran. -/
theorem C1_counterexample :
    ndF.persist.currentTerm < (PMsg.response_vote 8 true).term ∧
    ndF.persist.votedFor = some 3 ∧
    data_received_peer cfg3 ndF 2 (PMsg.response_vote 8 true) =
      Res.ok (bump ndF 8, Out.empty) ∧
    (bump ndF 8).persist.votedFor = some 3 ∧
    Out.empty.calls = [] := by
  refine ⟨by with_unfolding_all decide, by with_unfolding_all decide, ?_,
    by with_unfolding_all decide, rfl⟩
  exact data_received_peer_bump_follower cfg3 ndF 2 (PMsg.response_vote 8 true)
    (by with_unfolding_all decide) (by with_unfolding_all decide)

/-- C1 (amended): on a higher-term peer message the node sets
`currentTerm` to the message term; if it is not already a Follower it
converts to Follower — which clears `votedFor` — and processes the same
message exactly once through the dispatch of the new Follower; if it is
already a Follower, `votedFor` is kept and the message is dropped
without role-specific handling. -/
theorem C1_term_bump_rule (cfg : Config) (n : Node) (peer : ℕ) (msg : PMsg)
    (h : n.persist.currentTerm < msg.term) :
    (bump n msg.term).persist.currentTerm = msg.term ∧
    (n.role = Role.follower →
      data_received_peer cfg n peer msg = Res.ok (bump n msg.term, Out.empty) ∧
      (bump n msg.term).persist.votedFor = n.persist.votedFor) ∧
    (n.role ≠ Role.follower →
      data_received_peer cfg n peer msg =
        roleDispatch cfg (follower_init (bump n msg.term)) peer msg ∧
      (follower_init (bump n msg.term)).persist.votedFor = none ∧
      (follower_init (bump n msg.term)).role = Role.follower ∧
      (follower_init (bump n msg.term)).persist.currentTerm = msg.term) :=
  ⟨rfl,
    fun hr => ⟨data_received_peer_bump_follower cfg n peer msg hr h, rfl⟩,
    fun hr => ⟨data_received_peer_bump_nonfollower cfg n peer msg hr h, rfl, rfl, rfl⟩⟩

/-- Witness for C1: the Candidate `ndC` (term 5) receiving a term-9
append message converts to Follower and handles it there. -/
theorem C1_term_bump_rule_witness :
    (bump ndC 9).persist.currentTerm = 9 ∧
    data_received_peer cfg3 ndC 2 (PMsg.append_entries 9 2 0 0 (some 0) [] none) =
      roleDispatch cfg3 (follower_init (bump ndC 9)) 2
        (PMsg.append_entries 9 2 0 0 (some 0) [] none) ∧
    (follower_init (bump ndC 9)).persist.votedFor = none := by
  have h := C1_term_bump_rule cfg3 ndC 2 (PMsg.append_entries 9 2 0 0 (some 0) [] none)
    (by with_unfolding_all decide)
  exact ⟨h.1, (h.2.2 (by with_unfolding_all decide)).1, (h.2.2 (by with_unfolding_all decide)).2.1⟩

/-- C4 (confirmed): the Follower grants a vote iff the message term is
at least `currentTerm`, `votedFor` is null or the candidate, and the
last log index of the candidate is at least the local one; on grant it
persists `votedFor = candidateId`, and it always replies
`response_vote` carrying the grant flag and the (unchanged)
`currentTerm`. -/
theorem C4_request_vote_grant_iff (n : Node) (peer : ℕ) (t : ℚ) (cid : ℕ)
    (lli llt : ℚ) :
    (voteGrantedB n t cid lli = true ↔
      (t ≥ n.persist.currentTerm ∧
        (n.persist.votedFor = none ∨ n.persist.votedFor = some cid) ∧
        lli ≥ n.log.index)) ∧
    (follower_on_request_vote n peer t cid lli llt).1.persist.votedFor =
      (if voteGrantedB n t cid lli then some cid else n.persist.votedFor) ∧
    (follower_on_request_vote n peer t cid lli llt).1.persist.currentTerm =
      n.persist.currentTerm ∧
    (follower_on_request_vote n peer t cid lli llt).2.psends =
      [(peer, PMsg.response_vote n.persist.currentTerm (voteGrantedB n t cid lli))] := by
  refine ⟨?_, ?_, ?_, ?_⟩
  · simp [voteGrantedB, and_assoc]
  · simp only [follower_on_request_vote]
    split <;> simp
  · simp only [follower_on_request_vote]
    split <;> simp
  · simp only [follower_on_request_vote]
    split <;> simp_all

/-- C10 (confirmed): a null `prevLogTerm` passes the previous-log-term
consistency check whatever the log holds, so the `success` flag of
`on_peer_append_entries` reduces to the bare term check. -/
theorem C10_null_prev_log_term_passes (n : Node) (t pli : ℚ) :
    prevLogTermMatchB n pli none = true ∧
    appendSuccessB n t pli none = decide (t ≥ n.persist.currentTerm) := by
  refine ⟨rfl, ?_⟩
  simp [appendSuccessB, prevLogTermMatchB]

/-- C3 counterexample: the claim says a request with a stale term never
mutates state, but an `append_entries` carrying snapshot fields
reinstalls the log and adopts the sender as leader even at a stale
term: `ndF` is at term 5, the message at term 3, yet the log and
`leaderId` change. -/
theorem C3_counterexample :
    (PMsg.append_entries 3 2 0 0 (some 0) [] (some (5, 2, 9))).term <
      ndF.persist.currentTerm ∧
    (resultNode (data_received_peer cfg3 ndF 2
        (PMsg.append_entries 3 2 0 0 (some 0) [] (some (5, 2, 9)))) ndF).volatile.leaderId =
      some 2 ∧
    ndF.volatile.leaderId = none ∧
    (resultNode (data_received_peer cfg3 ndF 2
        (PMsg.append_entries 3 2 0 0 (some 0) [] (some (5, 2, 9)))) ndF).log.index = 5 ∧
    ndF.log.index = 2 := by
  rw [data_received_peer_no_bump cfg3 ndF 2 _ (by with_unfolding_all decide)]
  refine ⟨by with_unfolding_all decide, by with_unfolding_all decide,
    by with_unfolding_all decide, by with_unfolding_all decide, by with_unfolding_all decide⟩

/-- C3 (amended): a Follower receiving a `request_vote` or a snapshot-free
`append_entries` whose term is strictly below `currentTerm` replies with
its current term and mutates nothing — the whole node state is returned
unchanged; only a snapshot-carrying `append_entries` escapes this rule
(see the counterexample). -/
theorem C3_stale_term_no_mutation (cfg : Config) (n : Node) (peer : ℕ)
    (hr : n.role = Role.follower) :
    (∀ t cid lli llt, t < n.persist.currentTerm →
      data_received_peer cfg n peer (PMsg.request_vote t cid lli llt) =
        Res.ok (n,
          { psends := [(peer, PMsg.response_vote n.persist.currentTerm false)],
            csends := [], calls := [Handler.followerRequestVote] })) ∧
    (∀ t lid lc pli plt es, t < n.persist.currentTerm →
      data_received_peer cfg n peer (PMsg.append_entries t lid lc pli plt es none) =
        Res.ok (n,
          { psends := [(peer, PMsg.response_append n.persist.currentTerm (n.log.index + 1))],
            csends := [], calls := [Handler.followerAppendEntries] })) := by
  constructor
  · intro t cid lli llt ht
    rw [data_received_peer_no_bump cfg n peer (PMsg.request_vote t cid lli llt)
      (not_lt.mpr (le_of_lt ht))]
    have hg : voteGrantedB n t cid lli = false := by
      simp [voteGrantedB, not_le.mpr ht]
    simp [roleDispatch, hr, follower_on_request_vote, hg]
  · intro t lid lc pli plt es ht
    have hs : appendSuccessB n t pli plt = false := by
      simp [appendSuccessB, not_le.mpr ht]
    rw [data_received_peer_no_bump cfg n peer (PMsg.append_entries t lid lc pli plt es none)
      (not_lt.mpr (le_of_lt ht))]
    simp [roleDispatch, hr, follower_on_append_entries, hs]

/-- Witness for C3: the Follower `ndF` at term 5 receiving a stale
term-3 vote request and a stale snapshot-free append. -/
theorem C3_stale_term_no_mutation_witness :
    data_received_peer cfg3 ndF 2 (PMsg.request_vote 3 2 9 1) =
      Res.ok (ndF,
        { psends := [(2, PMsg.response_vote ndF.persist.currentTerm false)],
          csends := [], calls := [Handler.followerRequestVote] }) ∧
    data_received_peer cfg3 ndF 2 (PMsg.append_entries 3 2 0 0 (some 0) [] none) =
      Res.ok (ndF,
        { psends := [(2, PMsg.response_append ndF.persist.currentTerm (ndF.log.index + 1))],
          csends := [], calls := [Handler.followerAppendEntries] }) :=
  ⟨(C3_stale_term_no_mutation cfg3 ndF 2 (by with_unfolding_all decide)).1
      3 2 9 1 (by with_unfolding_all decide),
    (C3_stale_term_no_mutation cfg3 ndF 2 (by with_unfolding_all decide)).2
      3 2 0 0 (some 0) [] (by with_unfolding_all decide)⟩

/-- C5 (confirmed): `on_peer_response_append` stores the reported
`next_index` under the peer, refreshes its own entry to `log.index + 1`,
commits at the median of all `nextIndex` values minus one (under the
monotone, index-clamped `commit` contract of the log store), and then
runs the waiting-client notification. -/
theorem C5_response_append_median_commit (n : Node) (peer : ℕ) (x : ℚ)
    (hne : peer ≠ n.volatile.selfId) :
    (leader_response_append_core n peer x).leaderV.nextIndex =
      dinsert n.volatile.selfId (n.log.index + 1) (dinsert peer x n.leaderV.nextIndex) ∧
    dlookup peer (leader_response_append_core n peer x).leaderV.nextIndex = some x ∧
    dlookup n.volatile.selfId (leader_response_append_core n peer x).leaderV.nextIndex =
      some (n.log.index + 1) ∧
    (leader_response_append_core n peer x).log.commitIndex =
      min (max n.log.commitIndex
        (pyMedian ((dinsert n.volatile.selfId (n.log.index + 1)
          (dinsert peer x n.leaderV.nextIndex)).map Prod.snd) - 1)) n.log.index ∧
    leader_on_response_append n peer x =
      (match notify_waiting_clients (leader_response_append_core n peer x) with
       | Res.ok (n2, cs) =>
         Res.ok (n2, { psends := [], csends := cs, calls := [Handler.leaderResponseAppend] })
       | Res.err e => Res.err e) := by
  refine ⟨rfl, ?_, ?_, rfl, rfl⟩
  · rw [show (leader_response_append_core n peer x).leaderV.nextIndex =
        dinsert n.volatile.selfId (n.log.index + 1) (dinsert peer x n.leaderV.nextIndex)
      from rfl]
    rw [dlookup_dinsert_ne peer n.volatile.selfId _ _ hne]
    exact dlookup_dinsert_self peer x _
  · exact dlookup_dinsert_self n.volatile.selfId _ _

/-- Witness for C5: the Leader `ndL0` processing a `response_append`
from peer 3 reporting next index 1. -/
theorem C5_response_append_median_commit_witness :
    (leader_response_append_core ndL0 3 1).leaderV.nextIndex =
      dinsert ndL0.volatile.selfId (ndL0.log.index + 1) (dinsert 3 1 ndL0.leaderV.nextIndex) ∧
    dlookup 3 (leader_response_append_core ndL0 3 1).leaderV.nextIndex = some 1 ∧
    dlookup ndL0.volatile.selfId (leader_response_append_core ndL0 3 1).leaderV.nextIndex =
      some (ndL0.log.index + 1) ∧
    (leader_response_append_core ndL0 3 1).log.commitIndex =
      min (max ndL0.log.commitIndex
        (pyMedian ((dinsert ndL0.volatile.selfId (ndL0.log.index + 1)
          (dinsert 3 1 ndL0.leaderV.nextIndex)).map Prod.snd) - 1)) ndL0.log.index ∧
    leader_on_response_append ndL0 3 1 =
      (match notify_waiting_clients (leader_response_append_core ndL0 3 1) with
       | Res.ok (n2, cs) =>
         Res.ok (n2, { psends := [], csends := cs, calls := [Handler.leaderResponseAppend] })
       | Res.err e => Res.err e) :=
  C5_response_append_median_commit ndL0 3 1 (by with_unfolding_all decide)

/-- C8 (confirmed): entering the Candidate role sets `votesCount` to 1,
increments `currentTerm` and votes for self; each `response_vote` adds
the granted flag to `votesCount`, and the node becomes Leader exactly
when the count exceeds half the cluster size. -/
theorem C8_candidate_election (cfg : Config) (n : Node) (g : Bool) :
    (candidate_init cfg n).1.candV.votesCount = 1 ∧
    (candidate_init cfg n).1.persist.currentTerm = n.persist.currentTerm + 1 ∧
    (candidate_init cfg n).1.persist.votedFor = some n.volatile.selfId ∧
    (candidate_on_response_vote cfg { n with role := Role.candidate } g).1.candV.votesCount =
      n.candV.votesCount + (if g then 1 else 0) ∧
    ((candidate_on_response_vote cfg { n with role := Role.candidate } g).1.role = Role.leader ↔
      ((n.candV.votesCount : ℚ) + (if g then 1 else 0) > (cfg.cluster.length : ℚ) / 2)) := by
  refine ⟨rfl, rfl, rfl, ?_, ?_⟩
  · simp only [candidate_on_response_vote, leader_init]
    split <;> split <;> rfl
  · by_cases hc : ((n.candV.votesCount + (if g then 1 else 0) : ℕ) : ℚ) >
        (cfg.cluster.length : ℚ) / 2
    · have hc2 : (n.candV.votesCount : ℚ) + (if g then 1 else 0) >
          (cfg.cluster.length : ℚ) / 2 := by push_cast at hc; exact hc
      simp [candidate_on_response_vote, leader_init, hc, hc2]
    · have hc2 : ¬ ((n.candV.votesCount : ℚ) + (if g then 1 else 0) >
          (cfg.cluster.length : ℚ) / 2) := by push_cast at hc; exact hc
      simp [candidate_on_response_vote, leader_init, hc, hc2]

/-- C2 (code bug): with `waitingClients = {1: [10]}` and
`commitIndex = 0`, entry 1 is not yet committed, so the claim (and
spec section 4.6) requires the bucket to stay queued and the client
to get nothing; the source comparison
answers the client with success and removes the bucket instead. -/
theorem C2_uncommitted_client_answered :
    ¬ ((1 : ℚ) ≤ 0) ∧
    send_client_append_response [((1 : ℚ), [10])] 0 =
      Res.ok ([], [(10, CMsg.result true)]) :=
  ⟨by with_unfolding_all decide, by with_unfolding_all decide⟩

/-- C7 (code bug): the Leader `ndL` (commit index 0, clients waiting on
entries 1 and 2) handling a well-formed `response_append` from peer 3
raises `KeyError` out of the handler: the delete loop of
`send_client_append_response` deletes the key held by the leftover loop
variable twice. -/
theorem C7_response_append_handler_raises :
    data_received_peer cfg3 ndL 3 (PMsg.response_append 4 1) = Res.err Err.keyError := by
  rw [data_received_peer_no_bump cfg3 ndL 3 (PMsg.response_append 4 1)
    (by with_unfolding_all decide)]
  with_unfolding_all decide

/-- C6 counterexample: the claim says a non-Leader with an unknown
leader replies `redirect` with a null leader, but the handler indexes
the cluster map with the null `leaderId` and raises `KeyError`, sending
no reply at all: `ndF` knows no leader. -/
theorem C6_counterexample :
    ndF.volatile.leaderId = none ∧
    on_client_append_nonleader cfg3 ndF = Res.err Err.keyError :=
  ⟨rfl, by with_unfolding_all decide⟩

/-- C6 (amended): a non-Leader role receiving a client `append` replies
`redirect` with the cluster address of `leaderId` when that leader is
known; when `leaderId` is null the cluster lookup raises `KeyError` and
no reply is sent. -/
theorem C6_redirect_append (cfg : Config) (n : Node) :
    (n.volatile.leaderId = none →
      on_client_append_nonleader cfg n = Res.err Err.keyError) ∧
    (∀ lid addr, n.volatile.leaderId = some lid →
      dlookup lid cfg.cluster = some addr →
      on_client_append_nonleader cfg n = Res.ok (CMsg.redirect addr)) := by
  constructor
  · intro h
    simp [on_client_append_nonleader, h]
  · intro lid addr h1 h2
    simp [on_client_append_nonleader, h1, h2]

/-- Witness for C6: the Follower `ndF2` knows leader 2, whose cluster
address is 12. -/
theorem C6_redirect_append_witness :
    on_client_append_nonleader cfg3 ndF2 = Res.ok (CMsg.redirect 12) :=
  (C6_redirect_append cfg3 ndF2).2 2 12 (by with_unfolding_all decide)
    (by with_unfolding_all decide)

end Zatt
